import Mathlib

/-!
Verification of the resolution-selection core of the ComfyUI-J1mB091 node pack.

The definitions below are shallow embeddings of `src/resolution_nodes.py`
(`ImageProcessingBase`, `ResolutionSelector`) and of
`src/wan_resolution_selector.py` (`WanResolutionSelector`).

Python `float` arithmetic is modelled exactly: every arithmetic step of the
source that produces a `float` goes through `fl`, which rounds an exact
rational value to the nearest IEEE-754 binary64 value (round to nearest,
ties to even).  Python's `/` on integers is correctly-rounded true division,
so `longer / shorter` becomes `fl (longer / shorter)` of the exact quotient;
the literal `0.05` and the computed constants `16 / 9`, `4 / 3` likewise
become `fl` of the exact rational.  All values reached by this code are far
inside the normal range of binary64, so `fl` needs no subnormal or overflow
cases.

Rational values are carried as unnormalized integer fractions `Frac` with a
positive denominator (kept positive by construction), so that every
comparison is an integer comparison and all concrete computations reduce in
the kernel.
-/

namespace ResolutionCore

/-- An unnormalized rational number: `num / den`.  Every `Frac` built by the
definitions below has a positive denominator. -/
structure Frac where
  num : ℤ
  den : ℤ
deriving DecidableEq

/-- Embed an integer. -/
def Frac.ofInt (n : ℤ) : Frac := ⟨n, 1⟩

/-- Exact difference of fractions. -/
def Frac.sub (a b : Frac) : Frac := ⟨a.num * b.den - b.num * a.den, a.den * b.den⟩

/-- Exact product of fractions. -/
def Frac.mul (a b : Frac) : Frac := ⟨a.num * b.num, a.den * b.den⟩

/-- Exact quotient of two integers as a fraction, with the sign moved into
the numerator so the denominator stays positive (the source only divides by
a nonzero value). -/
def fracOfQuot (a b : ℤ) : Frac := if b < 0 then ⟨-a, -b⟩ else ⟨a, b⟩

/-- Absolute value, as Python's `abs` on a float (exact). -/
def fabs (a : Frac) : Frac := if a.num < 0 then ⟨-a.num, a.den⟩ else a

/-- Value comparison `a < b` (denominators positive). -/
abbrev fLt (a b : Frac) : Prop := a.num * b.den < b.num * a.den

/-- Value comparison `a ≤ b` (denominators positive). -/
abbrev fLe (a b : Frac) : Prop := a.num * b.den ≤ b.num * a.den

/-- Value equality (denominators positive). -/
abbrev fEq (a b : Frac) : Prop := a.num * b.den = b.num * a.den

/-- Kernel-friendly power of two. -/
def ipow2 : ℕ → ℤ
  | 0 => 1
  | n + 1 => 2 * ipow2 n

/-- Two to the 52nd, the binary64 significand scale. -/
def two52 : ℤ := ipow2 52

/-- Round the value of `q` (denominator positive) to the nearest integer,
ties to even — the rounding IEEE-754's default mode applies to the scaled
significand.  With a positive denominator, `Int` division `/` (Euclidean)
is floor division and `%` the nonnegative remainder. -/
def rne (q : Frac) : ℤ :=
  let f := q.num / q.den
  let r := q.num % q.den
  if 2 * r < q.den then f
  else if q.den < 2 * r then f + 1
  else if f % 2 = 0 then f else f + 1

/-- Normalize a positive value into the binade `[1, 2)`: `norm2 fuel q e`
returns `(m, e')` with `q · 2^e = m · 2^e'` and `m ∈ [1, 2)` whenever the
fuel suffices (fuel 300 covers every magnitude this development meets). -/
def norm2 : ℕ → Frac → ℤ → Frac × ℤ
  | 0, q, e => (q, e)
  | n + 1, q, e =>
    if fLt q (Frac.ofInt 1) then norm2 n ⟨2 * q.num, q.den⟩ (e - 1)
    else if fLe (Frac.ofInt 2) q then norm2 n ⟨q.num, 2 * q.den⟩ (e + 1)
    else (q, e)

/-- Power of two as a fraction with positive denominator. -/
def pow2F (e : ℤ) : Frac :=
  if 0 ≤ e then ⟨ipow2 e.toNat, 1⟩ else ⟨1, ipow2 (-e).toNat⟩

/-- Model of IEEE-754 binary64 rounding: the double nearest the exact value
of `q` (round to nearest, ties to even), returned as an exact fraction.
Valid throughout the normal range, which covers every value the
resolution-selection code produces. -/
def fl (q : Frac) : Frac :=
  if q.num = 0 then Frac.ofInt 0
  else
    let a := if q.num < 0 then (⟨-q.num, q.den⟩ : Frac) else q
    let me := norm2 300 a 0
    let k := rne (Frac.mul me.1 ⟨two52, 1⟩)
    let v := Frac.mul (Frac.ofInt k) (pow2F (me.2 - 52))
    if q.num < 0 then ⟨-v.num, v.den⟩ else v

/-- Float subtraction of two doubles held as exact fractions: exact
difference, then one rounding — exactly what the hardware does. -/
def fsubF (a b : Frac) : Frac := fl (Frac.sub a b)

/-- Float division of two Python ints, `a / b`: the correctly rounded double
of the exact quotient. -/
def fdivInt (a b : ℤ) : Frac := fl (fracOfQuot a b)

/-- The double produced by the literal `0.05`
(`ASPECT_RATIO_TOLERANCE = 0.05` in both selector classes). -/
def TOLERANCE_F : Frac := fl ⟨1, 20⟩

/-- The double produced by evaluating `16 / 9` in the candidate table. -/
def R169_F : Frac := fdivInt 16 9

/-- The double produced by evaluating `4 / 3` in the candidate table. -/
def R43_F : Frac := fdivInt 4 3

/-- An image-like value as the nodes receive it: a PIL image carrying a
`size` but no `shape`, a tensor/ndarray carrying a `shape` list, or an
object with no `shape` attribute at all.  (A Python `None` argument is the
surrounding `Option`.) -/
inductive ImageVal where
  | pil (width height : ℤ)
  | tensor (shape : List ℤ)
  | noShapeObj
deriving DecidableEq

/-- Dimension extraction from a shape list, as indexed by
`extract_image_dimensions`: `[batch, height, width, channels]`,
`[height, width, channels]` or `[height, width]`; anything else is invalid. -/
def dimsFromShape : List ℤ → Option (ℤ × ℤ)
  | [_, h, w, _] => some (h, w)
  | [h, w, _] => some (h, w)
  | [h, w] => some (h, w)
  | _ => none

/-- Embedding of `ImageProcessingBase.extract_image_dimensions`
(src/resolution_nodes.py).  Returns `(height, width)`.  Every failure —
`None` input, missing `shape`, bad shape length, non-positive dimensions —
is caught internally and replaced with the default `(512, 512)`; the PIL
branch returns before the positivity check, exactly as in the source. -/
def extractImageDimensions : Option ImageVal → ℤ × ℤ
  | none => (512, 512)
  | some (ImageVal.pil w h) => (h, w)
  | some ImageVal.noShapeObj => (512, 512)
  | some (ImageVal.tensor s) =>
    match dimsFromShape s with
    | none => (512, 512)
    | some (h, w) => if h ≤ 0 ∨ w ≤ 0 then (512, 512) else (h, w)

/-- Embedding of `WanResolutionSelector._extract_image_dimensions`
(src/wan_resolution_selector.py).  Strict: raises (returns `Except.error`)
on a missing `shape` attribute (a PIL image has none), an unexpected shape
length, or non-positive dimensions.  Returns `(height, width)`. -/
def wanExtractImageDimensions : ImageVal → Except String (ℤ × ℤ)
  | ImageVal.pil _ _ => .error "Unsupported image type: missing shape attribute"
  | ImageVal.noShapeObj => .error "Unsupported image type: missing shape attribute"
  | ImageVal.tensor s =>
    match dimsFromShape s with
    | none => .error "Unexpected image shape"
    | some (h, w) =>
      if h ≤ 0 ∨ w ≤ 0 then .error "Invalid image dimensions" else .ok (h, w)

/-- The `override == off` tail of `_resolve_ratio_key`: classify the
normalized aspect `longer / shorter` (float arithmetic, modelled by `fl`).
The candidate dict `{16:9: 16/9, 4:3: 4/3}` is iterated in insertion order
with a strict `<` update starting from an infinite best-so-far, which is
exactly: answer `4:3` iff its distance is strictly smaller, else `16:9`. -/
def classifyAspect (longer shorter : ℤ) : String × Option String :=
  if shorter = 0 then ("1:1", none)
  else if fLe (fabs (fsubF (fdivInt longer shorter) (Frac.ofInt 1))) TOLERANCE_F then
    ("1:1", none)
  else if fLt (fabs (fsubF (fdivInt longer shorter) R43_F))
      (fabs (fsubF (fdivInt longer shorter) R169_F)) then
    ("4:3", none)
  else ("16:9", none)

/-- Embedding of `_resolve_ratio_key`, identical in behaviour in
`ResolutionSelector` and `WanResolutionSelector` (both iterate the candidate
dict in the same order with the same strict `<` update, and
`ResolutionSelector`'s surrounding `try` can never fire since no statement
in it raises). -/
def resolveRatioKey (overrideKey : String) (width height : ℤ) :
    String × Option String :=
  if overrideKey = "16:9" ∨ overrideKey = "4:3" ∨ overrideKey = "1:1" then
    (overrideKey, if overrideKey = "1:1" then none else some "landscape")
  else if overrideKey = "3:4" ∨ overrideKey = "9:16" then
    (overrideKey, some "portrait")
  else classifyAspect (max width height) (min width height)

/-- The `override == off` classification tail read with exact rational
arithmetic in place of binary64 rounding — the idealized-arithmetic
companion of `classifyAspect`, used to state the tie-break rule (an exact
tie between the two candidate distances is not representable in binary64,
so the rule only bites in the exact reading). -/
def classifyAspectExact (longer shorter : ℤ) : String × Option String :=
  if shorter = 0 then ("1:1", none)
  else if fLe (fabs (Frac.sub (fracOfQuot longer shorter) (Frac.ofInt 1))) ⟨1, 20⟩ then
    ("1:1", none)
  else if fLt (fabs (Frac.sub (fracOfQuot longer shorter) ⟨4, 3⟩))
      (fabs (Frac.sub (fracOfQuot longer shorter) ⟨16, 9⟩)) then
    ("4:3", none)
  else ("16:9", none)

/-- Exact-arithmetic companion of `resolveRatioKey` (same control flow,
exact rationals). -/
def resolveRatioKeyExact (overrideKey : String) (width height : ℤ) :
    String × Option String :=
  if overrideKey = "16:9" ∨ overrideKey = "4:3" ∨ overrideKey = "1:1" then
    (overrideKey, if overrideKey = "1:1" then none else some "landscape")
  else if overrideKey = "3:4" ∨ overrideKey = "9:16" then
    (overrideKey, some "portrait")
  else classifyAspectExact (max width height) (min width height)

/-- Decidable equality for `Except`, so that concrete selector runs can be
checked by `decide`. -/
instance {ε α : Type} [DecidableEq ε] [DecidableEq α] : DecidableEq (Except ε α) :=
  fun x y =>
    match x, y with
    | .ok a, .ok b =>
      match decEq a b with
      | isTrue h => isTrue (h ▸ rfl)
      | isFalse h => isFalse (fun hc => h (Except.ok.inj hc))
    | .error a, .error b =>
      match decEq a b with
      | isTrue h => isTrue (h ▸ rfl)
      | isFalse h => isFalse (fun hc => h (Except.error.inj hc))
    | .ok _, .error _ => isFalse (fun hc => Except.noConfusion hc)
    | .error _, .ok _ => isFalse (fun hc => Except.noConfusion hc)

/-- First-match association-list lookup, the embedding of a Python dict
access on a string key. -/
def lookupStr {α : Type} (k : String) : List (String × α) → Option α
  | [] => none
  | (k', v) :: rest => if k = k' then some v else lookupStr k rest

/-- The portrait→landscape remap `{"3:4": "4:3", "9:16": "16:9"}.get(k, k)`
applied by every caller before the preset lookup. -/
def mapToLandscape (k : String) : String :=
  if k = "3:4" then "4:3" else if k = "9:16" then "16:9" else k

namespace ResolutionSelector

/-- Configuration constant of `ResolutionSelector`. -/
def DIMENSION_ALIGNMENT : ℤ := 16

/-- Configuration constant of `ResolutionSelector`. -/
def MIN_DIMENSION : ℤ := 16

/-- Configuration constant of `ResolutionSelector`. -/
def MAX_DIMENSION : ℤ := 8192

/-- `ResolutionSelector.WAN_PRESETS`: quality tier → landscape ratio key →
base dimensions. -/
def WAN_PRESETS : List (String × List (String × (ℤ × ℤ))) :=
  [("480p", [("1:1", (512, 512)), ("4:3", (640, 480)), ("16:9", (832, 480))]),
   ("720p", [("1:1", (768, 768)), ("4:3", (960, 720)), ("16:9", (1280, 720))])]

/-- `ResolutionSelector.FLUX_KONTEXT_PRESETS`. -/
def FLUX_KONTEXT_PRESETS : List (String × (ℤ × ℤ)) :=
  [("672×1568  (9:21)", (672, 1568)),
   ("688×1504  (9:19.5)", (688, 1504)),
   ("720×1456  (9:18)", (720, 1456)),
   ("752×1392  (9:17)", (752, 1392)),
   ("800×1328  (5:8)", (800, 1328)),
   ("832×1248  (2:3)", (832, 1248)),
   ("880×1184  (3:4)", (880, 1184)),
   ("944×1104  (4:5)", (944, 1104)),
   ("1024×1024  (1:1)", (1024, 1024)),
   ("1104×944  (5:4)", (1104, 944)),
   ("1184×880  (4:3)", (1184, 880)),
   ("1248×832  (3:2)", (1248, 832)),
   ("1328×800  (8:5)", (1328, 800)),
   ("1392×752  (17:9)", (1392, 752)),
   ("1456×720  (18:9)", (1456, 720)),
   ("1504×688  (19.5:9)", (1504, 688)),
   ("1568×672  (21:9)", (1568, 672))]

/-- `ResolutionSelector.FLUX_PRESETS`. -/
def FLUX_PRESETS : List (String × (ℤ × ℤ)) :=
  [("576×2048  (9:32)", (576, 2048)),
   ("640×1472  (9:21)", (640, 1472)),
   ("704×1472  (9:19)", (704, 1472)),
   ("768×1344  (9:16)", (768, 1344)),
   ("896×1152  (7:9)", (896, 1152)),
   ("832×1280  (5:8)", (832, 1280)),
   ("832×1152  (5:7)", (832, 1152)),
   ("896×1152  (4:5)", (896, 1152)),
   ("768×1280  (3:5)", (768, 1280)),
   ("896×1152  (3:4)", (896, 1152)),
   ("832×1280  (2:3)", (832, 1280)),
   ("1024×1024  (1:1)", (1024, 1024)),
   ("1280×832  (3:2)", (1280, 832)),
   ("1152×896  (4:3)", (1152, 896)),
   ("1280×768  (5:3)", (1280, 768)),
   ("1152×896  (5:4)", (1152, 896)),
   ("1152×832  (7:5)", (1152, 832)),
   ("1280×832  (8:5)", (1280, 832)),
   ("1152×896  (9:7)", (1152, 896)),
   ("1344×768  (16:9)", (1344, 768)),
   ("1472×704  (19:9)", (1472, 704)),
   ("1472×640  (21:9)", (1472, 640)),
   ("2048×576  (32:9)", (2048, 576))]

/-- `ResolutionSelector.SDXL_PRESETS`. -/
def SDXL_PRESETS : List (String × (ℤ × ℤ)) :=
  [("640×1536  (5:12)", (640, 1536)),
   ("768×1344  (4:7)", (768, 1344)),
   ("832×1216  (2:3)", (832, 1216)),
   ("896×1152  (7:9)", (896, 1152)),
   ("1024×1024  (1:1)", (1024, 1024)),
   ("1152×896  (9:7)", (1152, 896)),
   ("1216×832  (3:2)", (1216, 832)),
   ("1344×768  (7:4)", (1344, 768)),
   ("1536×640  (12:5)", (1536, 640))]

/-- `ResolutionSelector._handle_manual_mode`: validate alignment and bounds,
then return the pair unchanged. -/
def handleManualMode (manualWidth manualHeight : ℤ) : Except String (ℤ × ℤ) :=
  if manualWidth % DIMENSION_ALIGNMENT ≠ 0 ∨ manualHeight % DIMENSION_ALIGNMENT ≠ 0 then
    .error "manual_width and manual_height must be divisible by 16"
  else if ¬(MIN_DIMENSION ≤ manualWidth ∧ manualWidth ≤ MAX_DIMENSION) ∨
      ¬(MIN_DIMENSION ≤ manualHeight ∧ manualHeight ≤ MAX_DIMENSION) then
    .error "manual_width and manual_height must be within [16, 8192]"
  else .ok (manualWidth, manualHeight)

/-- `ResolutionSelector._handle_flux_mode`: direct preset lookup for the
named-preset families. -/
def handleFluxMode (presetLabel model : String) : Except String (ℤ × ℤ) :=
  match lookupStr presetLabel
      (if model = "SDXL" then SDXL_PRESETS
       else if model = "FLUX Kontext" then FLUX_KONTEXT_PRESETS
       else FLUX_PRESETS) with
  | none => .error "Invalid aspect ratio for model"
  | some d => .ok d

/-- `ResolutionSelector._select_base_resolution`: nested dict access
`WAN_PRESETS[quality][ratio_key]`, with `KeyError` re-raised as a
descriptive `ValueError`. -/
def selectBaseResolution (quality ratioKey : String) : Except String (ℤ × ℤ) :=
  match lookupStr quality WAN_PRESETS with
  | none => .error "Unsupported combination of quality and ratio"
  | some inner =>
    match lookupStr ratioKey inner with
    | none => .error "Unsupported combination of quality and ratio"
    | some d => .ok d

/-- The `try` body of `ResolutionSelector._handle_wan_with_image`: extract
dimensions (internally-recovering extractor), classify, remap portrait keys,
look up the base preset, then apply orientation. -/
def handleWanWithImageBody (image : ImageVal) (quality overrideKey : String) :
    Except String (ℤ × ℤ) :=
  match extractImageDimensions (some image) with
  | (imageHeight, imageWidth) =>
    match resolveRatioKey overrideKey imageWidth imageHeight with
    | (ratioKey, forced) =>
      match selectBaseResolution quality (mapToLandscape ratioKey) with
      | .error e => .error e
      | .ok (baseWidth, baseHeight) =>
        let orient : Option String :=
          match forced with
          | some s => some s
          | none =>
            if ratioKey ≠ "1:1" then
              some (if imageWidth ≥ imageHeight then "landscape" else "portrait")
            else none
        if orient = some "portrait" ∧ ratioKey ≠ "1:1" then .ok (baseHeight, baseWidth)
        else .ok (baseWidth, baseHeight)

/-- `ResolutionSelector._handle_wan_with_image`: the whole body runs inside
`try`; any error is logged and replaced by the quality-keyed safe default
`defaults.get(quality, (512, 512))`, so this handler always returns a
value. -/
def handleWanWithImage (image : ImageVal) (quality overrideKey : String) : ℤ × ℤ :=
  match handleWanWithImageBody image quality overrideKey with
  | .ok d => d
  | .error _ =>
    if quality = "480p" then (512, 512)
    else if quality = "720p" then (768, 768)
    else (512, 512)

/-- `ResolutionSelector._handle_wan_without_image`: requires a non-`off`
override, then classifies from the `(1, 1)` sentinel; errors propagate. -/
def handleWanWithoutImage (quality overrideKey : String) : Except String (ℤ × ℤ) :=
  if overrideKey = "off" then
    .error "In auto mode without an image, aspect_ratio_override must be set (not 'off')"
  else
    match resolveRatioKey overrideKey 1 1 with
    | (ratioKey, forced) =>
      match selectBaseResolution quality (mapToLandscape ratioKey) with
      | .error e => .error e
      | .ok (baseWidth, baseHeight) =>
        if forced = some "portrait" ∧ ratioKey ≠ "1:1" then .ok (baseHeight, baseWidth)
        else .ok (baseWidth, baseHeight)

/-- `ResolutionSelector.select_resolution`: mode and model dispatch.  Any
model other than the three named-preset families takes the WAN branch, as in
the source's `else`. -/
def selectResolution (mode model quality overrideKey presetLabel : String)
    (manualWidth manualHeight : ℤ) (image : Option ImageVal) :
    Except String (ℤ × ℤ) :=
  if mode = "manual" then handleManualMode manualWidth manualHeight
  else if mode = "auto" then
    if model = "FLUX" ∨ model = "FLUX Kontext" ∨ model = "SDXL" then
      handleFluxMode presetLabel model
    else
      match image with
      | some img => .ok (handleWanWithImage img quality overrideKey)
      | none => handleWanWithoutImage quality overrideKey
  else .error "Unsupported mode"

end ResolutionSelector

namespace WanResolutionSelector

/-- Configuration constant of `WanResolutionSelector` (note: 32, not 16). -/
def DIMENSION_ALIGNMENT : ℤ := 32

/-- Configuration constant of `WanResolutionSelector`. -/
def MIN_DIMENSION : ℤ := 32

/-- Configuration constant of `WanResolutionSelector`. -/
def MAX_DIMENSION : ℤ := 8192

/-- `WanResolutionSelector.PRESETS` (same table as
`ResolutionSelector.WAN_PRESETS`). -/
def PRESETS : List (String × List (String × (ℤ × ℤ))) :=
  [("480p", [("1:1", (512, 512)), ("4:3", (640, 480)), ("16:9", (832, 480))]),
   ("720p", [("1:1", (768, 768)), ("4:3", (960, 720)), ("16:9", (1280, 720))])]

/-- `WanResolutionSelector._select_base_resolution`. -/
def selectBaseResolution (quality ratioKey : String) : Except String (ℤ × ℤ) :=
  match lookupStr quality PRESETS with
  | none => .error "Unsupported combination of quality and ratio"
  | some inner =>
    match lookupStr ratioKey inner with
    | none => .error "Unsupported combination of quality and ratio"
    | some d => .ok d

/-- `WanResolutionSelector.select_resolution`: manual validation (alignment
32), or the auto mode; with an image the strict extractor's errors propagate
— there is no `try` anywhere in this class.  `forced_orientation or (...)`
uses Python truthiness on `None`, i.e. `Option.getD`. -/
def selectResolution (mode quality overrideKey : String)
    (manualWidth manualHeight : ℤ) (image : Option ImageVal) :
    Except String (ℤ × ℤ) :=
  if mode = "manual" then
    if manualWidth % DIMENSION_ALIGNMENT ≠ 0 ∨ manualHeight % DIMENSION_ALIGNMENT ≠ 0 then
      .error "manual_width and manual_height must be divisible by 32"
    else if ¬(MIN_DIMENSION ≤ manualWidth ∧ manualWidth ≤ MAX_DIMENSION) ∨
        ¬(MIN_DIMENSION ≤ manualHeight ∧ manualHeight ≤ MAX_DIMENSION) then
      .error "manual_width and manual_height must be within [32, 8192]"
    else .ok (manualWidth, manualHeight)
  else if mode = "auto" then
    match image with
    | some img =>
      match wanExtractImageDimensions img with
      | .error e => .error e
      | .ok (imageHeight, imageWidth) =>
        match resolveRatioKey overrideKey imageWidth imageHeight with
        | (ratioKey, forced) =>
          match selectBaseResolution quality (mapToLandscape ratioKey) with
          | .error e => .error e
          | .ok (baseWidth, baseHeight) =>
            let orient : String :=
              forced.getD (if imageWidth ≥ imageHeight then "landscape" else "portrait")
            if orient = "portrait" ∧ ratioKey ≠ "1:1" then .ok (baseHeight, baseWidth)
            else .ok (baseWidth, baseHeight)
    | none =>
      if overrideKey = "off" then
        .error "In auto mode without an image, aspect_ratio_override must be set (not 'off')"
      else
        match resolveRatioKey overrideKey 1 1 with
        | (ratioKey, forced) =>
          match selectBaseResolution quality (mapToLandscape ratioKey) with
          | .error e => .error e
          | .ok (baseWidth, baseHeight) =>
            if forced = some "portrait" ∧ ratioKey ≠ "1:1" then .ok (baseHeight, baseWidth)
            else .ok (baseWidth, baseHeight)
  else .error "Unsupported mode"

end WanResolutionSelector

/-- Modelled from the spec's override-dominance wording: for an explicit
override token, the expected result is the quality tier's base preset for
the token's landscape equivalent, swapped to portrait for the two portrait
tokens.  This is the independent expected-value table that
`ResolutionSelector.selectResolution` is compared against. -/
def wanOverridePreset (quality overrideKey : String) : ℤ × ℤ :=
  if quality = "480p" then
    if overrideKey = "1:1" then (512, 512)
    else if overrideKey = "4:3" then (640, 480)
    else if overrideKey = "16:9" then (832, 480)
    else if overrideKey = "3:4" then (480, 640)
    else (480, 832)
  else
    if overrideKey = "1:1" then (768, 768)
    else if overrideKey = "4:3" then (960, 720)
    else if overrideKey = "16:9" then (1280, 720)
    else if overrideKey = "3:4" then (720, 960)
    else (720, 1280)

/-- The output invariant of claim C9: both components are multiples of 16
within `[16, 8192]` (hence positive). -/
abbrev validDims (d : ℤ × ℤ) : Prop :=
  d.1 % 16 = 0 ∧ d.2 % 16 = 0 ∧ 16 ≤ d.1 ∧ d.1 ≤ 8192 ∧ 16 ≤ d.2 ∧ d.2 ≤ 8192

/-! ### Scale invariance of the float model

`fl` depends only on the value `num / den`: scaling numerator and
denominator by one positive integer leaves the result unchanged.  This lets
statements about a whole family of dimension pairs sharing one aspect ratio
reduce to a single concrete computation. -/

theorem norm2_scale (m : ℤ) (hm : 0 < m) :
    ∀ (n : ℕ) (a b e : ℤ), norm2 n ⟨a * m, b * m⟩ e =
      ((⟨(norm2 n ⟨a, b⟩ e).1.num * m, (norm2 n ⟨a, b⟩ e).1.den * m⟩ : Frac),
        (norm2 n ⟨a, b⟩ e).2) := by
  intro n
  induction n with
  | zero => intro a b e; rfl
  | succ n ih =>
    intro a b e
    have h1 : fLt (⟨a * m, b * m⟩ : Frac) (Frac.ofInt 1) ↔
        fLt (⟨a, b⟩ : Frac) (Frac.ofInt 1) := by
      simp only [fLt, Frac.ofInt, mul_one, one_mul]
      exact mul_lt_mul_right hm
    have h2 : fLe (Frac.ofInt 2) (⟨a * m, b * m⟩ : Frac) ↔
        fLe (Frac.ofInt 2) (⟨a, b⟩ : Frac) := by
      simp only [fLe, Frac.ofInt, mul_one, one_mul, mul_comm (2:ℤ) (b * m), mul_comm (2:ℤ) b]
      rw [mul_right_comm b m 2]
      exact mul_le_mul_right hm
    simp only [norm2]
    by_cases hc1 : fLt (⟨a, b⟩ : Frac) (Frac.ofInt 1)
    · rw [if_pos (h1.mpr hc1), if_pos hc1]
      have he : (⟨2 * (a * m), b * m⟩ : Frac) = ⟨(2 * a) * m, b * m⟩ := by
        rw [mul_assoc]
      rw [he]
      exact ih (2 * a) b (e - 1)
    · rw [if_neg (fun hh => hc1 (h1.mp hh)), if_neg hc1]
      by_cases hc2 : fLe (Frac.ofInt 2) (⟨a, b⟩ : Frac)
      · rw [if_pos (h2.mpr hc2), if_pos hc2]
        have he : (⟨a * m, 2 * (b * m)⟩ : Frac) = ⟨a * m, (2 * b) * m⟩ := by
          rw [mul_assoc]
        rw [he]
        exact ih a (2 * b) (e + 1)
      · rw [if_neg (fun hh => hc2 (h2.mp hh)), if_neg hc2]

theorem rne_scale (a b m : ℤ) (hm : 0 < m) : rne ⟨a * m, b * m⟩ = rne ⟨a, b⟩ := by
  unfold rne
  simp only
  have hdiv : a * m / (b * m) = a / b := by
    rw [mul_comm a m, mul_comm b m]
    exact Int.mul_ediv_mul_of_pos _ _ hm
  have hmod : a * m % (b * m) = m * (a % b) := by
    rw [mul_comm a m, mul_comm b m]
    exact Int.mul_emod_mul_of_pos _ _ hm
  rw [hdiv, hmod]
  have h1 : (2 * (m * (a % b)) < b * m) ↔ (2 * (a % b) < b) := by
    rw [mul_left_comm 2 m (a % b), mul_comm b m]
    exact mul_lt_mul_left hm
  have h2 : (b * m < 2 * (m * (a % b))) ↔ (b < 2 * (a % b)) := by
    rw [mul_left_comm 2 m (a % b), mul_comm b m]
    exact mul_lt_mul_left hm
  by_cases hc1 : 2 * (a % b) < b
  · rw [if_pos (h1.mpr hc1), if_pos hc1]
  · rw [if_neg (fun hh => hc1 (h1.mp hh)), if_neg hc1]
    by_cases hc2 : b < 2 * (a % b)
    · rw [if_pos (h2.mpr hc2), if_pos hc2]
    · rw [if_neg (fun hh => hc2 (h2.mp hh)), if_neg hc2]

theorem rne_mul_two52_scale (x y m : ℤ) (hm : 0 < m) :
    rne (Frac.mul ⟨x * m, y * m⟩ ⟨two52, 1⟩) = rne (Frac.mul ⟨x, y⟩ ⟨two52, 1⟩) := by
  simp only [Frac.mul]
  have h1 : x * m * two52 = (x * two52) * m := by ring
  have h2 : y * m * 1 = (y * 1) * m := by ring
  rw [h1, h2, rne_scale _ _ m hm]

theorem fl_scale (a b m : ℤ) (hm : 0 < m) : fl ⟨a * m, b * m⟩ = fl ⟨a, b⟩ := by
  unfold fl
  simp only
  by_cases h0 : a = 0
  · rw [if_pos (by rw [h0, zero_mul]), if_pos h0]
  · rw [if_neg (by exact fun hh => h0 (by rcases mul_eq_zero.mp hh with h | h; exact h; omega)),
      if_neg h0]
    by_cases hn : a < 0
    · have hnm : a * m < 0 := mul_neg_of_neg_of_pos hn hm
      rw [if_pos hnm, if_pos hn, if_pos hnm, if_pos hn]
      have he : (⟨-(a * m), b * m⟩ : Frac) = ⟨(-a) * m, b * m⟩ := by
        rw [neg_mul]
      rw [he, norm2_scale m hm 300 (-a) b 0]
      dsimp only
      rw [rne_mul_two52_scale _ _ m hm]
    · have hnm : ¬ a * m < 0 := by
        intro hh
        rcases lt_trichotomy a 0 with h | h | h
        · exact hn h
        · omega
        · exact absurd hh (not_lt.mpr (le_of_lt (mul_pos h hm)))
      rw [if_neg hnm, if_neg hn, if_neg hnm, if_neg hn]
      rw [norm2_scale m hm 300 a b 0]
      dsimp only
      rw [rne_mul_two52_scale _ _ m hm]

theorem fdivInt_scale (a b m : ℤ) (hm : 0 < m) (hb : 0 < b) :
    fdivInt (a * m) (b * m) = fdivInt a b := by
  unfold fdivInt fracOfQuot
  rw [if_neg (not_lt.mpr (le_of_lt (mul_pos hb hm))), if_neg (not_lt.mpr (le_of_lt hb))]
  exact fl_scale a b m hm

/-! ### Evaluations of the aspect classifier -/

theorem classifyAspect_21_20 {m : ℤ} (hm : 0 < m) :
    classifyAspect (21 * m) (20 * m) = ("4:3", none) := by
  unfold classifyAspect
  rw [if_neg (by omega), fdivInt_scale 21 20 m hm (by omega),
    if_neg (by decide), if_pos (by decide)]

theorem classifyAspect_104999_100000 {m : ℤ} (hm : 0 < m) :
    classifyAspect (104999 * m) (100000 * m) = ("1:1", none) := by
  unfold classifyAspect
  rw [if_neg (by omega), fdivInt_scale 104999 100000 m hm (by omega), if_pos (by decide)]

theorem classifyAspect_self {n : ℤ} (hn : 0 < n) : classifyAspect n n = ("1:1", none) := by
  have hs : fdivInt n n = fdivInt 1 1 := by
    have := fdivInt_scale 1 1 n hn (by omega)
    rwa [one_mul] at this
  unfold classifyAspect
  rw [if_neg (by omega), hs, if_pos (by decide)]

theorem classifyAspectExact_14_9 {k : ℤ} (hk : 0 < k) :
    classifyAspectExact (14 * k) (9 * k) = ("16:9", none) := by
  have ha : fracOfQuot (14 * k) (9 * k) = ⟨14 * k, 9 * k⟩ := by
    unfold fracOfQuot
    rw [if_neg (by omega)]
  have e1 : fabs (Frac.sub ⟨14 * k, 9 * k⟩ (Frac.ofInt 1)) = ⟨5 * k, 9 * k⟩ := by
    unfold Frac.sub Frac.ofInt fabs
    dsimp only
    rw [if_neg (by omega)]
    have h1 : 14 * k * 1 - 1 * (9 * k) = 5 * k := by ring
    have h2 : 9 * k * 1 = 9 * k := by ring
    rw [h1, h2]
  have e2 : fabs (Frac.sub ⟨14 * k, 9 * k⟩ ⟨4, 3⟩) = ⟨6 * k, 27 * k⟩ := by
    unfold Frac.sub fabs
    dsimp only
    rw [if_neg (by omega)]
    have h1 : 14 * k * 3 - 4 * (9 * k) = 6 * k := by ring
    have h2 : 9 * k * 3 = 27 * k := by ring
    rw [h1, h2]
  have e3 : fabs (Frac.sub ⟨14 * k, 9 * k⟩ ⟨16, 9⟩) = ⟨18 * k, 81 * k⟩ := by
    unfold Frac.sub fabs
    dsimp only
    rw [if_pos (by omega)]
    have h1 : -(14 * k * 9 - 16 * (9 * k)) = 18 * k := by ring
    have h2 : 9 * k * 9 = 81 * k := by ring
    rw [h1, h2]
  unfold classifyAspectExact
  rw [if_neg (by omega), ha, e1, e2, e3,
    if_neg (by unfold fLe; dsimp only; omega),
    if_neg (by unfold fLt; dsimp only; intro hc; nlinarith [hc])]

/-! ### Association-list lookup lemmas -/

theorem lookupStr_forall {α : Type} {P : α → Prop} {k : String} :
    ∀ {l : List (String × α)} {v : α}, (∀ p ∈ l, P p.2) → lookupStr k l = some v → P v := by
  intro l
  induction l with
  | nil => intro v _ h; exact absurd h (by simp [lookupStr])
  | cons p rest ih =>
    intro v hall h
    rcases p with ⟨k', v'⟩
    unfold lookupStr at h
    by_cases hk : k = k'
    · rw [if_pos hk] at h
      have hv : v' = v := Option.some.inj h
      exact hv ▸ hall ⟨k', v'⟩ (by simp)
    · rw [if_neg hk] at h
      exact ih (fun q hq => hall q (List.mem_cons_of_mem _ hq)) h

theorem lookupStr_mem_keys {α : Type} {k : String} :
    ∀ {l : List (String × α)} {v : α}, lookupStr k l = some v → k ∈ l.map Prod.fst := by
  intro l
  induction l with
  | nil => intro v h; exact absurd h (by simp [lookupStr])
  | cons p rest ih =>
    intro v h
    rcases p with ⟨k', v'⟩
    unfold lookupStr at h
    by_cases hk : k = k'
    · simp [hk]
    · rw [if_neg hk] at h
      simp [ih h]

/-! ### The claims -/

/-- C2: with override `off`, an image whose normalized aspect (longer over
shorter) is exactly 1.05 — i.e. `20 · w = 21 · h` with `0 < h` (whence
`h < w`) — classifies to the non-square key `4:3`, while a normalized
aspect of exactly 1.04999 (`100000 · w = 104999 · h`) classifies to the
square key `1:1`.  This is the binary64 behaviour of the source: `21/20`
rounds up while the literal `0.05` rounds to a smaller excess, so
`abs(aspect - 1.0) <= 0.05` is false at an aspect of exactly 1.05. -/
theorem tolerance_boundary_C2 :
    ∀ w h : ℤ, 0 < h →
      (20 * w = 21 * h → resolveRatioKey "off" w h = ("4:3", none)) ∧
      (100000 * w = 104999 * h → resolveRatioKey "off" w h = ("1:1", none)) := by
  intro w h hh
  constructor
  · intro hq
    obtain ⟨m, rfl⟩ : ∃ m, h = 20 * m := ⟨h / 20, by omega⟩
    have hw : w = 21 * m := by omega
    subst hw
    unfold resolveRatioKey
    rw [if_neg (by decide), if_neg (by decide),
      max_eq_left (by omega), min_eq_right (by omega)]
    exact classifyAspect_21_20 (by omega)
  · intro hq
    obtain ⟨m, rfl⟩ : ∃ m, h = 100000 * m := ⟨h / 100000, by omega⟩
    have hw : w = 104999 * m := by omega
    subst hw
    unfold resolveRatioKey
    rw [if_neg (by decide), if_neg (by decide),
      max_eq_left (by omega), min_eq_right (by omega)]
    exact classifyAspect_104999_100000 (by omega)

/-- Witness for C2 at the concrete pairs (21, 20) and (104999, 100000). -/
theorem tolerance_boundary_C2_witness :
    resolveRatioKey "off" 21 20 = ("4:3", none) ∧
    resolveRatioKey "off" 104999 100000 = ("1:1", none) :=
  ⟨(tolerance_boundary_C2 21 20 (by decide)).1 (by decide),
   (tolerance_boundary_C2 104999 100000 (by decide)).2 (by decide)⟩

/-- C5: in auto mode with the WAN family, no image and override `off`,
`select_resolution` fails with the missing-override error and returns no
resolution — in both selector classes, for every quality tier, preset label
and manual dimensions. -/
theorem missing_override_C5 :
    ∀ (quality presetLabel : String) (mw mh : ℤ),
      ResolutionSelector.selectResolution "auto" "WAN" quality "off" presetLabel mw mh none =
        Except.error
          "In auto mode without an image, aspect_ratio_override must be set (not 'off')" ∧
      WanResolutionSelector.selectResolution "auto" quality "off" mw mh none =
        Except.error
          "In auto mode without an image, aspect_ratio_override must be set (not 'off')" := by
  intro quality presetLabel mw mh
  exact ⟨rfl, rfl⟩

/-- C6: with override `off` and a square image (`n × n`, `n > 0`), the WAN
auto path of `ResolutionSelector.select_resolution` returns the square
preset of the quality tier — `(512, 512)` for 480p and `(768, 768)` for
720p.  Passing the two (equal) dimensions in the other order is the same
call, since the image's shape `[1, n, n, 3]` is symmetric in them. -/
theorem square_invariance_C6 :
    ∀ (n mw mh : ℤ) (presetLabel : String), 0 < n →
      ResolutionSelector.selectResolution "auto" "WAN" "480p" "off" presetLabel mw mh
        (some (ImageVal.tensor [1, n, n, 3])) = Except.ok (512, 512) ∧
      ResolutionSelector.selectResolution "auto" "WAN" "720p" "off" presetLabel mw mh
        (some (ImageVal.tensor [1, n, n, 3])) = Except.ok (768, 768) := by
  intro n mw mh presetLabel hn
  have hext : extractImageDimensions (some (ImageVal.tensor [1, n, n, 3])) = (n, n) := by
    simp only [extractImageDimensions, dimsFromShape]
    rw [if_neg (by omega)]
  have hkey : resolveRatioKey "off" n n = ("1:1", none) := by
    unfold resolveRatioKey
    rw [if_neg (by decide), if_neg (by decide), max_self, min_self]
    exact classifyAspect_self hn
  constructor <;>
  · unfold ResolutionSelector.selectResolution ResolutionSelector.handleWanWithImage
      ResolutionSelector.handleWanWithImageBody
    rw [if_neg (by decide), if_pos rfl, if_neg (by decide)]
    dsimp only
    rw [hext, hkey]
    rfl

/-- Witness for C6 at `n = 7`. -/
theorem square_invariance_C6_witness :
    ResolutionSelector.selectResolution "auto" "WAN" "480p" "off" "" 832 480
      (some (ImageVal.tensor [1, 7, 7, 3])) = Except.ok (512, 512) :=
  (square_invariance_C6 7 832 480 "" (by decide)).1

/-- C7: in the exact-rational reading of the classification (the
idealized-arithmetic companion `resolveRatioKeyExact` of the float-faithful
`resolveRatioKey` — in binary64 the two computed distances can never be
exactly equal, because the midpoint of the two rounded candidate constants
is not representable), whenever the absolute differences of the normalized
aspect to `16/9` and to `4/3` are exactly equal, the classification
returns `16:9`: the candidate loop updates only on a strictly smaller
distance and visits `16:9` first. -/
theorem tie_break_C7 :
    ∀ w h : ℤ, 0 < min w h →
      fEq (fabs (Frac.sub (fracOfQuot (max w h) (min w h)) ⟨16, 9⟩))
        (fabs (Frac.sub (fracOfQuot (max w h) (min w h)) ⟨4, 3⟩)) →
      resolveRatioKeyExact "off" w h = ("16:9", none) := by
  intro w h hmin htie
  have ha : fracOfQuot (max w h) (min w h) = ⟨max w h, min w h⟩ := by
    unfold fracOfQuot
    rw [if_neg (by omega)]
  rw [ha] at htie
  unfold Frac.sub fabs fEq at htie
  dsimp only at htie
  have h9 : 9 * max w h = 14 * min w h := by
    by_cases hx : max w h * 9 - 16 * min w h < 0
    · rw [if_pos hx] at htie
      by_cases hy : max w h * 3 - 4 * min w h < 0
      · rw [if_pos hy] at htie
        ring_nf at htie
        exfalso
        nlinarith [htie, mul_pos hmin hmin]
      · rw [if_neg hy] at htie
        ring_nf at htie
        have hfac : (9 * max w h - 14 * min w h) * (6 * min w h) =
            -(-(max w h * 9 - 16 * min w h) * (min w h * 3)) +
              (max w h * 3 - 4 * min w h) * (min w h * 9) := by ring
        have hz : (9 * max w h - 14 * min w h) * (6 * min w h) = 0 := by
          rw [hfac]
          ring_nf
          omega
        rcases mul_eq_zero.mp hz with hz1 | hz2
        · omega
        · omega
    · rw [if_neg hx] at htie
      by_cases hy : max w h * 3 - 4 * min w h < 0
      · rw [if_pos hy] at htie
        exfalso
        omega
      · rw [if_neg hy] at htie
        ring_nf at htie
        exfalso
        nlinarith [htie, mul_pos hmin hmin]
  obtain ⟨t, ht⟩ : ∃ t, min w h = 9 * t := ⟨min w h / 9, by omega⟩
  have hMt : max w h = 14 * t := by omega
  have htp : 0 < t := by omega
  unfold resolveRatioKeyExact
  rw [if_neg (by decide), if_neg (by decide), hMt, ht]
  exact classifyAspectExact_14_9 htp

/-- Witness for C7 at the exactly equidistant pair (14, 9). -/
theorem tie_break_C7_witness :
    resolveRatioKeyExact "off" 14 9 = ("16:9", none) :=
  tie_break_C7 14 9 (by decide) (by decide)

/-- C1 (counterexample): `ResolutionSelector`'s ratio-driven (WAN) auto path
does not surface internal errors.  First conjunct: the strict extractor
shows the shapeless image has no extractable dimensions; second conjunct:
`ResolutionSelector.select_resolution` on that very image still succeeds
with `(512, 512)` — the extractor's silent `(512, 512)` fallback — instead
of aborting; third conjunct: with an unsupported quality tier the preset
lookup fails inside the branch and the error is swallowed and replaced by
the catch-all default `(512, 512)`. -/
theorem wan_silent_fallback_C1_counterexample :
    wanExtractImageDimensions ImageVal.noShapeObj =
      Except.error "Unsupported image type: missing shape attribute" ∧
    ResolutionSelector.selectResolution "auto" "WAN" "480p" "off" "" 832 480
      (some ImageVal.noShapeObj) = Except.ok (512, 512) ∧
    ResolutionSelector.selectResolution "auto" "WAN" "999p" "16:9" "" 832 480
      (some (ImageVal.tensor [1, 1080, 1920, 3])) = Except.ok (512, 512) :=
  ⟨rfl, by decide, by decide⟩

/-- C1 (amended): failing loudly holds for `WanResolutionSelector` only.
First conjunct: a dimension-extraction failure aborts
`WanResolutionSelector.select_resolution` with that very error; second
conjunct: after a successful extraction, a preset-lookup failure likewise
aborts with its error; third conjunct: `ResolutionSelector`'s WAN-with-image
branch instead never fails — it always returns some `.ok` value, a default
being silently substituted on any internal error. -/
theorem wan_error_propagation_C1 :
    (∀ (quality overrideKey : String) (mw mh : ℤ) (img : ImageVal) (e : String),
       wanExtractImageDimensions img = Except.error e →
       WanResolutionSelector.selectResolution "auto" quality overrideKey mw mh (some img) =
         Except.error e) ∧
    (∀ (quality overrideKey : String) (mw mh ih iw : ℤ) (img : ImageVal) (e : String),
       wanExtractImageDimensions img = Except.ok (ih, iw) →
       WanResolutionSelector.selectBaseResolution quality
         (mapToLandscape (resolveRatioKey overrideKey iw ih).1) = Except.error e →
       WanResolutionSelector.selectResolution "auto" quality overrideKey mw mh (some img) =
         Except.error e) ∧
    (∀ (quality overrideKey presetLabel : String) (mw mh : ℤ) (img : ImageVal),
       ∃ d, ResolutionSelector.selectResolution "auto" "WAN" quality overrideKey presetLabel
         mw mh (some img) = Except.ok d) := by
  refine ⟨?_, ?_, ?_⟩
  · intro quality overrideKey mw mh img e hext
    unfold WanResolutionSelector.selectResolution
    rw [if_neg (by decide), if_pos rfl]
    dsimp only
    rw [hext]
  · intro quality overrideKey mw mh ih iw img e hext hbase
    unfold WanResolutionSelector.selectResolution
    rw [if_neg (by decide), if_pos rfl]
    dsimp only
    rw [hext]
    dsimp only
    rcases hR : resolveRatioKey overrideKey iw ih with ⟨rk, fo⟩
    rw [hR] at hbase
    dsimp only at hbase
    dsimp only
    rw [hbase]
  · intro quality overrideKey presetLabel mw mh img
    refine ⟨ResolutionSelector.handleWanWithImage img quality overrideKey, ?_⟩
    unfold ResolutionSelector.selectResolution
    rw [if_neg (by decide), if_pos rfl, if_neg (by decide)]

/-- Witness for C1's amended propagation: a shapeless image and an
unsupported quality tier each surface their error from
`WanResolutionSelector.select_resolution`. -/
theorem wan_error_propagation_C1_witness :
    WanResolutionSelector.selectResolution "auto" "480p" "off" 832 480
      (some ImageVal.noShapeObj) =
      Except.error "Unsupported image type: missing shape attribute" ∧
    WanResolutionSelector.selectResolution "auto" "999p" "16:9" 832 480
      (some (ImageVal.tensor [1, 1080, 1920, 3])) =
      Except.error "Unsupported combination of quality and ratio" :=
  ⟨wan_error_propagation_C1.1 "480p" "off" 832 480 ImageVal.noShapeObj _ rfl,
   wan_error_propagation_C1.2.1 "999p" "16:9" 832 480 1080 1920
     (ImageVal.tensor [1, 1080, 1920, 3]) _ (by decide) (by decide)⟩

/-- C3: override dominance.  For every image value whatsoever (the override
branch never consults the extracted dimensions), every valid quality tier
and every explicit non-`off` override token, the WAN auto path returns
exactly the preset for that token's ratio — swapped to portrait for the
portrait tokens — as tabulated by the spec-side `wanOverridePreset`. -/
theorem override_dominance_C3 :
    ∀ (img : ImageVal) (presetLabel : String) (mw mh : ℤ) (quality overrideKey : String),
      (quality = "480p" ∨ quality = "720p") →
      (overrideKey = "1:1" ∨ overrideKey = "4:3" ∨ overrideKey = "16:9" ∨
        overrideKey = "3:4" ∨ overrideKey = "9:16") →
      ResolutionSelector.selectResolution "auto" "WAN" quality overrideKey presetLabel mw mh
        (some img) = Except.ok (wanOverridePreset quality overrideKey) := by
  intro img presetLabel mw mh quality overrideKey hq hov
  rcases hq with rfl | rfl <;> rcases hov with rfl | rfl | rfl | rfl | rfl <;>
  · unfold ResolutionSelector.selectResolution ResolutionSelector.handleWanWithImage
      ResolutionSelector.handleWanWithImageBody
    rw [if_neg (by decide), if_pos rfl, if_neg (by decide)]
    dsimp only
    rcases hE : extractImageDimensions (some img) with ⟨ih, iw⟩
    rfl

/-- Witness for C3: a 16:9-landscape image forced to portrait 9:16. -/
theorem override_dominance_C3_witness :
    ResolutionSelector.selectResolution "auto" "WAN" "480p" "9:16" "" 832 480
      (some (ImageVal.tensor [1, 1080, 1920, 3])) = Except.ok (480, 832) :=
  override_dominance_C3 (ImageVal.tensor [1, 1080, 1920, 3]) "" 832 480 "480p" "9:16"
    (Or.inl rfl) (by decide)

/-- C4: manual-mode round trip and rejection, for both selector classes
(alignment unit 16 for `ResolutionSelector`, 32 for `WanResolutionSelector`,
bounds `[MIN_DIMENSION, MAX_DIMENSION]` in each) — regardless of every
other parameter. -/
theorem manual_roundtrip_C4 :
    ∀ (model quality overrideKey presetLabel : String) (image : Option ImageVal) (w h : ℤ),
      ((w % 16 = 0 ∧ h % 16 = 0 ∧ 16 ≤ w ∧ w ≤ 8192 ∧ 16 ≤ h ∧ h ≤ 8192) →
        ResolutionSelector.selectResolution "manual" model quality overrideKey presetLabel
          w h image = Except.ok (w, h)) ∧
      (¬(w % 16 = 0 ∧ h % 16 = 0 ∧ 16 ≤ w ∧ w ≤ 8192 ∧ 16 ≤ h ∧ h ≤ 8192) →
        ∃ e, ResolutionSelector.selectResolution "manual" model quality overrideKey presetLabel
          w h image = Except.error e) ∧
      ((w % 32 = 0 ∧ h % 32 = 0 ∧ 32 ≤ w ∧ w ≤ 8192 ∧ 32 ≤ h ∧ h ≤ 8192) →
        WanResolutionSelector.selectResolution "manual" quality overrideKey w h image =
          Except.ok (w, h)) ∧
      (¬(w % 32 = 0 ∧ h % 32 = 0 ∧ 32 ≤ w ∧ w ≤ 8192 ∧ 32 ≤ h ∧ h ≤ 8192) →
        ∃ e, WanResolutionSelector.selectResolution "manual" quality overrideKey w h image =
          Except.error e) := by
  intro model quality overrideKey presetLabel image w h
  refine ⟨?_, ?_, ?_, ?_⟩
  · intro hc
    unfold ResolutionSelector.selectResolution ResolutionSelector.handleManualMode
      ResolutionSelector.DIMENSION_ALIGNMENT ResolutionSelector.MIN_DIMENSION
      ResolutionSelector.MAX_DIMENSION
    rw [if_pos rfl, if_neg (by omega), if_neg (by omega)]
  · intro hc
    unfold ResolutionSelector.selectResolution ResolutionSelector.handleManualMode
      ResolutionSelector.DIMENSION_ALIGNMENT ResolutionSelector.MIN_DIMENSION
      ResolutionSelector.MAX_DIMENSION
    rw [if_pos rfl]
    by_cases h1 : w % 16 ≠ 0 ∨ h % 16 ≠ 0
    · exact ⟨"manual_width and manual_height must be divisible by 16", by rw [if_pos h1]⟩
    · refine ⟨"manual_width and manual_height must be within [16, 8192]", ?_⟩
      rw [if_neg h1, if_pos (by omega)]
  · intro hc
    unfold WanResolutionSelector.selectResolution
      WanResolutionSelector.DIMENSION_ALIGNMENT WanResolutionSelector.MIN_DIMENSION
      WanResolutionSelector.MAX_DIMENSION
    rw [if_pos rfl, if_neg (by omega), if_neg (by omega)]
  · intro hc
    unfold WanResolutionSelector.selectResolution
      WanResolutionSelector.DIMENSION_ALIGNMENT WanResolutionSelector.MIN_DIMENSION
      WanResolutionSelector.MAX_DIMENSION
    rw [if_pos rfl]
    by_cases h1 : w % 32 ≠ 0 ∨ h % 32 ≠ 0
    · exact ⟨"manual_width and manual_height must be divisible by 32", by rw [if_pos h1]⟩
    · refine ⟨"manual_width and manual_height must be within [32, 8192]", ?_⟩
      rw [if_neg h1, if_pos (by omega)]

/-- Witness for C4: the aligned pair (832, 480) round-trips; the misaligned
width 100 is rejected. -/
theorem manual_roundtrip_C4_witness :
    ResolutionSelector.selectResolution "manual" "WAN" "480p" "off" "" 832 480 none =
      Except.ok (832, 480) ∧
    (∃ e, ResolutionSelector.selectResolution "manual" "WAN" "480p" "off" "" 100 480 none =
      Except.error e) :=
  ⟨(manual_roundtrip_C4 "WAN" "480p" "off" "" none 832 480).1 (by decide),
   (manual_roundtrip_C4 "WAN" "480p" "off" "" none 100 480).2.1 (by decide)⟩

/-- C8: `_select_base_resolution` succeeds exactly on the six tabulated
(quality, landscape key) pairs and returns the table's dimensions there;
every other combination — in particular every portrait key such as `3:4`
and `9:16`, for every quality — fails with the unsupported-combination
error, so the function never itself remaps a portrait key to its landscape
equivalent. -/
theorem preset_lookup_C8 :
    (∀ (quality ratioKey : String) (d : ℤ × ℤ),
       ResolutionSelector.selectBaseResolution quality ratioKey = Except.ok d →
       (quality = "480p" ∨ quality = "720p") ∧
         (ratioKey = "1:1" ∨ ratioKey = "4:3" ∨ ratioKey = "16:9")) ∧
    (∀ quality : String,
       ∃ e1 e2, ResolutionSelector.selectBaseResolution quality "3:4" = Except.error e1 ∧
         ResolutionSelector.selectBaseResolution quality "9:16" = Except.error e2) ∧
    ResolutionSelector.selectBaseResolution "480p" "1:1" = Except.ok (512, 512) ∧
    ResolutionSelector.selectBaseResolution "480p" "4:3" = Except.ok (640, 480) ∧
    ResolutionSelector.selectBaseResolution "480p" "16:9" = Except.ok (832, 480) ∧
    ResolutionSelector.selectBaseResolution "720p" "1:1" = Except.ok (768, 768) ∧
    ResolutionSelector.selectBaseResolution "720p" "4:3" = Except.ok (960, 720) ∧
    ResolutionSelector.selectBaseResolution "720p" "16:9" = Except.ok (1280, 720) := by
  refine ⟨?_, ?_, by decide, by decide, by decide, by decide, by decide, by decide⟩
  · intro quality ratioKey d h
    unfold ResolutionSelector.selectBaseResolution at h
    rcases hq : lookupStr quality ResolutionSelector.WAN_PRESETS with _ | inner
    · rw [hq] at h; exact absurd h (by simp)
    · rw [hq] at h
      dsimp only at h
      rcases hk : lookupStr ratioKey inner with _ | dd
      · rw [hk] at h; exact absurd h (by simp)
      · constructor
        · have hm := lookupStr_mem_keys hq
          simpa [ResolutionSelector.WAN_PRESETS] using hm
        · have hinner : ∀ p ∈ ResolutionSelector.WAN_PRESETS,
              ∀ (kk : String) (vv : ℤ × ℤ), lookupStr kk p.2 = some vv →
                (kk = "1:1" ∨ kk = "4:3" ∨ kk = "16:9") := by
            intro p hp kk vv hkv
            have hmk := lookupStr_mem_keys hkv
            fin_cases hp <;> simpa using hmk
          exact lookupStr_forall
            (P := fun l2 => ∀ (kk : String) (vv : ℤ × ℤ), lookupStr kk l2 = some vv →
              (kk = "1:1" ∨ kk = "4:3" ∨ kk = "16:9"))
            hinner hq ratioKey dd hk
  · intro quality
    by_cases h1 : quality = "480p"
    · subst h1
      exact ⟨"Unsupported combination of quality and ratio",
        "Unsupported combination of quality and ratio", by decide, by decide⟩
    · by_cases h2 : quality = "720p"
      · subst h2
        exact ⟨"Unsupported combination of quality and ratio",
          "Unsupported combination of quality and ratio", by decide, by decide⟩
      · refine ⟨"Unsupported combination of quality and ratio",
          "Unsupported combination of quality and ratio", ?_, ?_⟩ <;>
          simp [ResolutionSelector.selectBaseResolution, ResolutionSelector.WAN_PRESETS,
            lookupStr, h1, h2]

/-- Witness for C8's characterization at the tabulated pair (480p, 1:1). -/
theorem preset_lookup_C8_witness :
    ("480p" = "480p" ∨ "480p" = "720p") ∧
      ("1:1" = "1:1" ∨ "1:1" = "4:3" ∨ "1:1" = "16:9") :=
  preset_lookup_C8.1 "480p" "1:1" (512, 512) (by decide)

/-- C10: with override `off` the classification never forces an
orientation and always lands in the closed landscape key set
`{1:1, 4:3, 16:9}`; a portrait key (or a forced portrait orientation) can
only come out of `_resolve_ratio_key` when the caller passed the
corresponding explicit portrait override token. -/
theorem ratio_key_closed_C10 :
    (∀ w h : ℤ, (resolveRatioKey "off" w h).2 = none ∧
       ((resolveRatioKey "off" w h).1 = "1:1" ∨ (resolveRatioKey "off" w h).1 = "4:3" ∨
         (resolveRatioKey "off" w h).1 = "16:9")) ∧
    (∀ (overrideKey : String) (w h : ℤ),
       ((resolveRatioKey overrideKey w h).1 = "3:4" ∨
         (resolveRatioKey overrideKey w h).1 = "9:16" ∨
         (resolveRatioKey overrideKey w h).2 = some "portrait") →
       (overrideKey = "3:4" ∨ overrideKey = "9:16")) := by
  constructor
  · intro w h
    unfold resolveRatioKey
    rw [if_neg (by decide), if_neg (by decide)]
    unfold classifyAspect
    split
    · exact ⟨rfl, Or.inl rfl⟩
    · split
      · exact ⟨rfl, Or.inl rfl⟩
      · split
        · exact ⟨rfl, Or.inr (Or.inl rfl)⟩
        · exact ⟨rfl, Or.inr (Or.inr rfl)⟩
  · intro overrideKey w h hyp
    unfold resolveRatioKey at hyp
    by_cases h1 : overrideKey = "16:9" ∨ overrideKey = "4:3" ∨ overrideKey = "1:1"
    · rw [if_pos h1] at hyp
      rcases h1 with rfl | rfl | rfl <;> revert hyp <;> decide
    · rw [if_neg h1] at hyp
      by_cases h2 : overrideKey = "3:4" ∨ overrideKey = "9:16"
      · exact h2
      · rw [if_neg h2] at hyp
        unfold classifyAspect at hyp
        exfalso
        revert hyp
        split
        · decide
        · split
          · decide
          · split
            · decide
            · decide

/-- Witness for C10's portrait-only-from-override direction at the token
`3:4`. -/
theorem ratio_key_closed_C10_witness : ("3:4" = "3:4" ∨ "3:4" = "9:16") :=
  ratio_key_closed_C10.2 "3:4" 100 200 (Or.inl (by decide))

/-! ### The output invariant (C9) -/

theorem validDims_swap {a b : ℤ} (h : validDims (a, b)) : validDims (b, a) := by
  obtain ⟨h1, h2, h3, h4, h5, h6⟩ := h
  exact ⟨h2, h1, h5, h6, h3, h4⟩

theorem selectBase_valid {quality ratioKey : String} {d : ℤ × ℤ}
    (h : ResolutionSelector.selectBaseResolution quality ratioKey = Except.ok d) :
    validDims d := by
  unfold ResolutionSelector.selectBaseResolution at h
  rcases hq : lookupStr quality ResolutionSelector.WAN_PRESETS with _ | inner
  · rw [hq] at h; exact absurd h (by simp)
  · rw [hq] at h
    dsimp only at h
    rcases hk : lookupStr ratioKey inner with _ | dd
    · rw [hk] at h; exact absurd h (by simp)
    · rw [hk] at h
      obtain rfl := Except.ok.inj h
      have hall : ∀ p ∈ ResolutionSelector.WAN_PRESETS,
          ∀ (kk : String) (vv : ℤ × ℤ), lookupStr kk p.2 = some vv → validDims vv := by
        intro p hp kk vv hkv
        have hpv : ∀ q ∈ p.2, validDims q.2 := by fin_cases hp <;> decide
        exact lookupStr_forall hpv hkv
      exact lookupStr_forall
        (P := fun l2 => ∀ (kk : String) (vv : ℤ × ℤ), lookupStr kk l2 = some vv → validDims vv)
        hall hq ratioKey dd hk

theorem handleFlux_valid {presetLabel model : String} {d : ℤ × ℤ}
    (h : ResolutionSelector.handleFluxMode presetLabel model = Except.ok d) :
    validDims d := by
  have hall : ∀ p ∈ (if model = "SDXL" then ResolutionSelector.SDXL_PRESETS
      else if model = "FLUX Kontext" then ResolutionSelector.FLUX_KONTEXT_PRESETS
      else ResolutionSelector.FLUX_PRESETS), validDims p.2 := by
    split
    · decide
    · split
      · decide
      · decide
  unfold ResolutionSelector.handleFluxMode at h
  rcases hq : lookupStr presetLabel (if model = "SDXL" then ResolutionSelector.SDXL_PRESETS
      else if model = "FLUX Kontext" then ResolutionSelector.FLUX_KONTEXT_PRESETS
      else ResolutionSelector.FLUX_PRESETS) with _ | dd
  · rw [hq] at h; exact absurd h (by simp)
  · rw [hq] at h
    obtain rfl := Except.ok.inj h
    exact lookupStr_forall hall hq

theorem handleWanWithImageBody_valid {img : ImageVal} {quality overrideKey : String}
    {d : ℤ × ℤ}
    (h : ResolutionSelector.handleWanWithImageBody img quality overrideKey = Except.ok d) :
    validDims d := by
  unfold ResolutionSelector.handleWanWithImageBody at h
  rcases hE : extractImageDimensions (some img) with ⟨ih, iw⟩
  rw [hE] at h
  dsimp only at h
  rcases hR : resolveRatioKey overrideKey iw ih with ⟨rk, fo⟩
  rw [hR] at h
  dsimp only at h
  rcases hS : ResolutionSelector.selectBaseResolution quality (mapToLandscape rk)
      with e | bd
  · rw [hS] at h; exact absurd h (by simp)
  · obtain ⟨bw, bh⟩ := bd
    rw [hS] at h
    have hv := selectBase_valid hS
    dsimp only at h
    have hd : d = (bh, bw) ∨ d = (bw, bh) := by
      rcases ite_eq_iff.mp h with ⟨_, he⟩ | ⟨_, he⟩
      · exact Or.inl (Except.ok.inj he).symm
      · exact Or.inr (Except.ok.inj he).symm
    rcases hd with rfl | rfl
    · exact validDims_swap hv
    · exact hv

theorem handleWanWithImage_valid (img : ImageVal) (quality overrideKey : String) :
    validDims (ResolutionSelector.handleWanWithImage img quality overrideKey) := by
  unfold ResolutionSelector.handleWanWithImage
  rcases hb : ResolutionSelector.handleWanWithImageBody img quality overrideKey with e | d
  · dsimp only
    split
    · decide
    · split
      · decide
      · decide
  · exact handleWanWithImageBody_valid hb

theorem handleWanWithoutImage_valid {quality overrideKey : String} {d : ℤ × ℤ}
    (h : ResolutionSelector.handleWanWithoutImage quality overrideKey = Except.ok d) :
    validDims d := by
  unfold ResolutionSelector.handleWanWithoutImage at h
  by_cases hoff : overrideKey = "off"
  · rw [if_pos hoff] at h; exact absurd h (by simp)
  · rw [if_neg hoff] at h
    rcases hR : resolveRatioKey overrideKey 1 1 with ⟨rk, fo⟩
    rw [hR] at h
    dsimp only at h
    rcases hS : ResolutionSelector.selectBaseResolution quality (mapToLandscape rk)
        with e | bd
    · rw [hS] at h; exact absurd h (by simp)
    · obtain ⟨bw, bh⟩ := bd
      rw [hS] at h
      have hv := selectBase_valid hS
      dsimp only at h
      have hd : d = (bh, bw) ∨ d = (bw, bh) := by
        rcases ite_eq_iff.mp h with ⟨_, he⟩ | ⟨_, he⟩
        · exact Or.inl (Except.ok.inj he).symm
        · exact Or.inr (Except.ok.inj he).symm
      rcases hd with rfl | rfl
      · exact validDims_swap hv
      · exact hv

theorem handleManual_valid {w h : ℤ} {d : ℤ × ℤ}
    (hm : ResolutionSelector.handleManualMode w h = Except.ok d) : validDims d := by
  unfold ResolutionSelector.handleManualMode at hm
  by_cases h1 : w % ResolutionSelector.DIMENSION_ALIGNMENT ≠ 0 ∨
      h % ResolutionSelector.DIMENSION_ALIGNMENT ≠ 0
  · rw [if_pos h1] at hm; exact absurd hm (by simp)
  · rw [if_neg h1] at hm
    by_cases h2 : ¬(ResolutionSelector.MIN_DIMENSION ≤ w ∧
        w ≤ ResolutionSelector.MAX_DIMENSION) ∨
        ¬(ResolutionSelector.MIN_DIMENSION ≤ h ∧ h ≤ ResolutionSelector.MAX_DIMENSION)
    · rw [if_pos h2] at hm; exact absurd hm (by simp)
    · rw [if_neg h2] at hm
      obtain rfl := Except.ok.inj hm
      have h1' : ¬(w % 16 ≠ 0 ∨ h % 16 ≠ 0) := h1
      have h2' : ¬(¬(16 ≤ w ∧ w ≤ 8192) ∨ ¬(16 ≤ h ∧ h ≤ 8192)) := h2
      exact ⟨by omega, by omega, by omega, by omega, by omega, by omega⟩

/-- C9: every `(width, height)` pair that
`ResolutionSelector.select_resolution` successfully returns — any mode, any
model family, including the error-fallback path of the WAN image branch —
has both components multiples of 16 within `[16, 8192]` (hence positive). -/
theorem output_invariant_C9 :
    ∀ (mode model quality overrideKey presetLabel : String) (mw mh w h : ℤ)
      (image : Option ImageVal),
      ResolutionSelector.selectResolution mode model quality overrideKey presetLabel mw mh
        image = Except.ok (w, h) →
      validDims (w, h) := by
  intro mode model quality overrideKey presetLabel mw mh w h image hok
  unfold ResolutionSelector.selectResolution at hok
  by_cases h1 : mode = "manual"
  · rw [if_pos h1] at hok
    exact handleManual_valid hok
  · rw [if_neg h1] at hok
    by_cases h2 : mode = "auto"
    · rw [if_pos h2] at hok
      by_cases h3 : model = "FLUX" ∨ model = "FLUX Kontext" ∨ model = "SDXL"
      · rw [if_pos h3] at hok
        exact handleFlux_valid hok
      · rw [if_neg h3] at hok
        rcases image with _ | img
        · exact handleWanWithoutImage_valid hok
        · dsimp only at hok
          have hv := handleWanWithImage_valid img quality overrideKey
          obtain hEq := Except.ok.inj hok
          exact hEq ▸ hv
    · rw [if_neg h2] at hok; exact absurd hok (by simp)

/-- Witness for C9 at the manual-mode call returning (832, 480). -/
theorem output_invariant_C9_witness : validDims ((832 : ℤ), (480 : ℤ)) :=
  output_invariant_C9 "manual" "WAN" "480p" "off" "" 832 480 832 480 none (by decide)

end ResolutionCore
